import Mathlib

/-!
# Parking-lot subsystem: shallow embedding and verification

This file embeds the parking-lot core of the repository
(`ParkingLot/System/ParkingSlot.py`, `ParkingFloor.py`, `TicketManager.py`,
`ParkingSystem.py`, `ParkingLot/ChargeStrategy/*.py`,
`ParkingLot/Logger/ConsoleLogger.py`) into Lean and proves properties of it.

Modelling conventions:
* `uuid.uuid4()` identifiers are modelled as `Nat` values supplied explicitly
  by the caller ("fresh id" arguments) — the Python code only relies on their
  uniqueness, never on their structure.
* `datetime` values are modelled as rational numbers of seconds on an
  absolute axis; `timedelta.total_seconds()` becomes rational subtraction.
* Python `dict` values (`ParkingFloor.slots`, `TicketManager.tickets`,
  `ParkingSystem.floors`) are modelled as lists in insertion order, which is
  exactly the guaranteed iteration order of Python dicts; key update keeps
  the original position, a new key is appended.
* Python exceptions are modelled with `Option`/`Except` (`none`/`.error`
  means the call raises); logging is side-effect free and dropped.
* `datetime.now()` sampled inside the charge strategies is modelled as an
  explicit `now` parameter.
* Python `round(x, 2)` rounds half to even; `round2` below implements that
  on rationals.
-/

set_option autoImplicit false

namespace ParkingLot

/-- Modelled from the spec: the `Enums` module (imported by the sources as
`from Enums import ParkingSlotType, ParkingSlotState`) is not present under
the sources; the spec enumerates the slot types as SMALL/MEDIUM/LARGE. -/
inductive ParkingSlotType where
  | SMALL
  | MEDIUM
  | LARGE
deriving DecidableEq, Repr

/-- Modelled from the spec: the `Enums` module is not present under the
sources; the spec enumerates the slot states as EMPTY/FILLED. -/
inductive ParkingSlotState where
  | EMPTY
  | FILLED
deriving DecidableEq, Repr

/-- `ParkingSlot` (`System/ParkingSlot.py`): id, type and state. The
constructor generates a uuid and starts EMPTY; we take the id as an
argument. -/
structure ParkingSlot where
  slot_id : Nat
  parking_slot_type : ParkingSlotType
  parking_slot_state : ParkingSlotState
deriving DecidableEq, Repr

/-- `ParkingSlot.__init__(slot_type)`: fresh id, given type, state EMPTY. -/
def ParkingSlot.init (slot_id : Nat) (slot_type : ParkingSlotType) : ParkingSlot :=
  { slot_id := slot_id
    parking_slot_type := slot_type
    parking_slot_state := ParkingSlotState.EMPTY }

def ParkingSlot.get_id (s : ParkingSlot) : Nat := s.slot_id

def ParkingSlot.get_type (s : ParkingSlot) : ParkingSlotType := s.parking_slot_type

def ParkingSlot.get_state (s : ParkingSlot) : ParkingSlotState := s.parking_slot_state

def ParkingSlot.set_state (s : ParkingSlot) (st : ParkingSlotState) : ParkingSlot :=
  { s with parking_slot_state := st }

/-- `Ticket` (`System/TicketManager.py`): id, vehicle number, slot id,
denormalized slot type, issue time (seconds). -/
structure Ticket where
  ticket_id : Nat
  vehicle_number : String
  parking_slot_id : Nat
  parking_slot_type : ParkingSlotType
  issued_time : ℚ
deriving DecidableEq, Repr

/-- `TicketManager` (`System/TicketManager.py`): the `tickets` dict from
ticket id to ticket, in insertion order. -/
structure TicketManager where
  tickets : List (Nat × Ticket)
deriving DecidableEq, Repr

/-- Python dict assignment `d[k] = v`: overwrite in place if the key exists,
else append. -/
def dictInsert (l : List (Nat × Ticket)) (k : Nat) (v : Ticket) : List (Nat × Ticket) :=
  if l.any (fun p => decide (p.1 = k)) then
    l.map (fun p => if p.1 = k then (k, v) else p)
  else
    l ++ [(k, v)]

/-- Python dict lookup `d[k]` as an option: first (only) entry with key `k`. -/
def dictGet (l : List (Nat × Ticket)) (k : Nat) : Option Ticket :=
  (l.find? (fun p => decide (p.1 = k))).map (fun p => p.2)

/-- `TicketManager.__init__`: empty tickets dict. Note the source has no
singleton guard here (unlike `ParkingSystem` and `ConsoleLogger`): it never
consults the class-level `instance` and never raises. -/
def TicketManager.construct (_inst : Option TicketManager) : Except String TicketManager :=
  Except.ok { tickets := [] }

/-- `TicketManager.create_ticket(vehicle_number, parking_slot_id, slot_type,
date)`: build a ticket with a fresh id, store it under its id, return it. -/
def TicketManager.create_ticket (tm : TicketManager) (fresh_id : Nat)
    (vehicle_number : String) (parking_slot_id : Nat)
    (slot_type : ParkingSlotType) (date : ℚ) : Ticket × TicketManager :=
  let ticket : Ticket :=
    { ticket_id := fresh_id
      vehicle_number := vehicle_number
      parking_slot_id := parking_slot_id
      parking_slot_type := slot_type
      issued_time := date }
  (ticket, { tickets := dictInsert tm.tickets ticket.ticket_id ticket })

/-- `TicketManager.invalidate_ticket(ticket)`: `del self.tickets[id]` then
`return True`. A `del` on an absent key raises `KeyError`, modelled as
`none`; the source never returns `False`. -/
def TicketManager.invalidate_ticket (tm : TicketManager) (ticket : Ticket) :
    Option (TicketManager × Bool) :=
  if tm.tickets.any (fun p => decide (p.1 = ticket.ticket_id)) then
    some ({ tickets := tm.tickets.filter (fun p => decide (p.1 ≠ ticket.ticket_id)) }, true)
  else
    none

/-- `ParkingFloor` (`System/ParkingFloor.py`): id and the `slots` dict keyed
by slot id, in insertion order. -/
structure ParkingFloor where
  floor_id : Nat
  slots : List ParkingSlot
deriving DecidableEq, Repr

/-- The list-comprehension filter of `book_slot`: type matches and EMPTY. -/
def slotMatches (vehicle_type : ParkingSlotType) (s : ParkingSlot) : Bool :=
  decide (s.get_type = vehicle_type ∧ s.get_state = ParkingSlotState.EMPTY)

/-- Mutating the dict entry for `slot_id` (Python mutates the slot object in
place; the dict key is the slot's id). -/
def setSlotState (slots : List ParkingSlot) (slot_id : Nat) (st : ParkingSlotState) :
    List ParkingSlot :=
  slots.map (fun s => if s.slot_id = slot_id then s.set_state st else s)

/-- `ParkingFloor.__init__`: fresh id, no slots. -/
def ParkingFloor.init (floor_id : Nat) : ParkingFloor :=
  { floor_id := floor_id, slots := [] }

/-- `ParkingFloor.add_slot(slot)`: `self.slots[slot.slot_id] = slot`. -/
def ParkingFloor.add_slot (f : ParkingFloor) (slot : ParkingSlot) : ParkingFloor :=
  if f.slots.any (fun s => decide (s.slot_id = slot.slot_id)) then
    { f with slots := f.slots.map (fun s => if s.slot_id = slot.slot_id then slot else s) }
  else
    { f with slots := f.slots ++ [slot] }

/-- `ParkingFloor.book_slot(vehicle_type, vehicle_id, date)`: collect the
EMPTY slots of the requested type in iteration (= insertion) order; if any,
take the first, set it FILLED and mint a ticket; else log and return None.
The fresh uuid for the ticket is the explicit `fresh_id`. -/
def ParkingFloor.book_slot (f : ParkingFloor) (tm : TicketManager) (fresh_id : Nat)
    (vehicle_type : ParkingSlotType) (vehicle_id : String) (date : ℚ) :
    Option Ticket × ParkingFloor × TicketManager :=
  let empty_slots := f.slots.filter (slotMatches vehicle_type)
  match empty_slots with
  | slot :: _ =>
      let f' : ParkingFloor :=
        { f with slots := setSlotState f.slots slot.slot_id ParkingSlotState.FILLED }
      let res := tm.create_ticket fresh_id vehicle_id slot.get_id vehicle_type date
      (some res.1, f', res.2)
  | [] => (none, f, tm)

/-- `ParkingFloor.release_slot(slot_id)`: if the id is a key of the slots
dict, set that slot EMPTY and return True (regardless of its current state);
else return False. -/
def ParkingFloor.release_slot (f : ParkingFloor) (slot_id : Nat) :
    Bool × ParkingFloor :=
  if f.slots.any (fun s => decide (s.slot_id = slot_id)) then
    (true, { f with slots := setSlotState f.slots slot_id ParkingSlotState.EMPTY })
  else
    (false, f)

/-- Round half to even on an integer-valued scale, as Python's `round`. -/
def roundHalfEven (x : ℚ) : ℤ :=
  let f : ℤ := ⌊x⌋
  let frac : ℚ := x - (f : ℚ)
  if frac < 1/2 then f
  else if 1/2 < frac then f + 1
  else if f % 2 = 0 then f else f + 1

/-- Python `round(x, 2)` on rationals: scale by 100, round half to even,
scale back. -/
def round2 (x : ℚ) : ℚ := (roundHalfEven (x * 100) : ℚ) / 100

/-- `FixedChargeStrategy` (`ChargeStrategy/FixedChargeStrategy.py`):
carries a single hourly rate. -/
structure FixedChargeStrategy where
  hourly_rate : ℚ
deriving DecidableEq, Repr

/-- `FixedChargeStrategy.__init__(hourly_rate = 20)`: the body assigns the
literal `20`, not the parameter — the argument is ignored. -/
def FixedChargeStrategy.init (hourly_rate : ℚ) : FixedChargeStrategy :=
  { hourly_rate := 20 }

/-- `FixedChargeStrategy.calculate_charge(ticket)`: elapsed seconds / 3600
times the stored rate, rounded to 2 decimals. `datetime.now()` is the
explicit `now`. -/
def FixedChargeStrategy.calculate_charge (c : FixedChargeStrategy) (ticket : Ticket)
    (now : ℚ) : ℚ :=
  let diff_sec := now - ticket.issued_time
  let diff_hrs := diff_sec / 3600
  round2 (diff_hrs * c.hourly_rate)

/-- `DynamicChargeStrategy.__init__` builds the rate table
SMALL=20, MEDIUM=30, LARGE=40; the lookup function is total because the
source populates every enumerated type. -/
def hourly_rate_map : ParkingSlotType → ℚ
  | ParkingSlotType.SMALL => 20
  | ParkingSlotType.MEDIUM => 30
  | ParkingSlotType.LARGE => 40

/-- `DynamicChargeStrategy.calculate_charge(ticket)`: elapsed seconds / 3600
times the rate looked up by the ticket's slot type, rounded to 2 decimals. -/
def DynamicChargeStrategy.calculate_charge (ticket : Ticket) (now : ℚ) : ℚ :=
  let diff_sec := now - ticket.issued_time
  let diff_hrs := diff_sec / 3600
  round2 (diff_hrs * hourly_rate_map ticket.parking_slot_type)

/-- The `ChargeStrategy` interface with its two implementations. -/
inductive ChargeStrategy where
  | fixed (s : FixedChargeStrategy)
  | dynamic
deriving DecidableEq, Repr

def ChargeStrategy.calculate_charge (c : ChargeStrategy) (ticket : Ticket) (now : ℚ) : ℚ :=
  match c with
  | ChargeStrategy.fixed s => s.calculate_charge ticket now
  | ChargeStrategy.dynamic => DynamicChargeStrategy.calculate_charge ticket now

/-- `ParkingSystem` (`System/ParkingSystem.py`): the `floors` dict in
insertion order and the active charge strategy. -/
structure ParkingSystem where
  floors : List ParkingFloor
  payment_strategy : ChargeStrategy
deriving DecidableEq, Repr

/-- `ParkingSystem.__init__`: raises `Exception("ParkingSystem is a
singleton")` when the class-level `instance` is already set; otherwise
builds the instance with no floors and a default `FixedChargeStrategy()`. -/
def ParkingSystem.construct (inst : Option ParkingSystem) : Except String ParkingSystem :=
  match inst with
  | some _ => Except.error "ParkingSystem is a singleton"
  | none =>
      Except.ok
        { floors := []
          payment_strategy := ChargeStrategy.fixed (FixedChargeStrategy.init 20) }

/-- `ConsoleLogger.__init__` (`Logger/ConsoleLogger.py`): raises
`Exception("ConsoleLogger is a singleton")` when the class-level `instance`
is already set. The logger has no state of its own. -/
def ConsoleLogger.construct (inst : Option Unit) : Except String Unit :=
  match inst with
  | some _ => Except.error "ConsoleLogger is a singleton"
  | none => Except.ok ()

/-- `ParkingSystem.add_floor(floor)`: `self.floors[floor.floor_id] = floor`. -/
def ParkingSystem.add_floor (sys : ParkingSystem) (floor : ParkingFloor) : ParkingSystem :=
  if sys.floors.any (fun f => decide (f.floor_id = floor.floor_id)) then
    { sys with floors := sys.floors.map (fun f => if f.floor_id = floor.floor_id then floor else f) }
  else
    { sys with floors := sys.floors ++ [floor] }

/-- `ParkingSystem.set_payment(strategy)`. -/
def ParkingSystem.set_payment (sys : ParkingSystem) (strategy : ChargeStrategy) : ParkingSystem :=
  { sys with payment_strategy := strategy }

/-- The `for floor in self.floors.values()` loop of `park_vehicle`: try each
floor in insertion order, return the first ticket. Booking mutates the floor
and the ticket registry, threaded explicitly. -/
def parkLoop (tm : TicketManager) (fresh_id : Nat) (vehicle_type : ParkingSlotType)
    (vehicle_id : String) (time : ℚ) :
    List ParkingFloor → Option Ticket × List ParkingFloor × TicketManager
  | [] => (none, [], tm)
  | f :: rest =>
      match f.book_slot tm fresh_id vehicle_type vehicle_id time with
      | (some t, f', tm') => (some t, f' :: rest, tm')
      | (none, f', tm') =>
          let r := parkLoop tm' fresh_id vehicle_type vehicle_id time rest
          (r.1, f' :: r.2.1, r.2.2)

/-- `ParkingSystem.park_vehicle(vehicle_type, vehicle_id, time)`: under the
system-wide lock, try the floors in registration order; `None` if all fail.
The lock serializes calls, so the sequential model is the locked behaviour. -/
def ParkingSystem.park_vehicle (sys : ParkingSystem) (tm : TicketManager) (fresh_id : Nat)
    (vehicle_type : ParkingSlotType) (vehicle_id : String) (time : ℚ) :
    Option Ticket × ParkingSystem × TicketManager :=
  let r := parkLoop tm fresh_id vehicle_type vehicle_id time sys.floors
  (r.1, { sys with floors := r.2.1 }, r.2.2)

/-- Result of `unpark_vehicle`: a fee, the implicit `None` fall-through
(invalid ticket, logged), or an uncaught `KeyError` escaping from
`invalidate_ticket`. -/
inductive UnparkResult where
  | fee (amount : ℚ)
  | invalidTicket
  | keyError
deriving DecidableEq, Repr

/-- The `for floor in self.floors.values()` loop of `unpark_vehicle`: try
`release_slot` on each floor; on the first success invalidate the ticket
(which may raise) and compute the fee; if no floor recognizes the slot id,
log and fall through to `None`. -/
def unparkLoop (tm : TicketManager) (strategy : ChargeStrategy) (ticket : Ticket)
    (now : ℚ) : List ParkingFloor → UnparkResult × List ParkingFloor × TicketManager
  | [] => (UnparkResult.invalidTicket, [], tm)
  | f :: rest =>
      let r := f.release_slot ticket.parking_slot_id
      if r.1 then
        match tm.invalidate_ticket ticket with
        | some (tm', _) =>
            (UnparkResult.fee (strategy.calculate_charge ticket now), r.2 :: rest, tm')
        | none => (UnparkResult.keyError, r.2 :: rest, tm)
      else
        let rec' := unparkLoop tm strategy ticket now rest
        (rec'.1, r.2 :: rec'.2.1, rec'.2.2)

/-- `ParkingSystem.unpark_vehicle(ticket)`: iterate floors, release, then
invalidate and charge with the active strategy. `datetime.now()` inside the
strategy is the explicit `now`. -/
def ParkingSystem.unpark_vehicle (sys : ParkingSystem) (tm : TicketManager)
    (ticket : Ticket) (now : ℚ) : UnparkResult × ParkingSystem × TicketManager :=
  let r := unparkLoop tm sys.payment_strategy ticket now sys.floors
  (r.1, { sys with floors := r.2.1 }, r.2.2)

/-- All slot ids registered anywhere in the system, in order. -/
def ParkingSystem.allSlotIds (sys : ParkingSystem) : List Nat :=
  sys.floors.flatMap (fun f => f.slots.map ParkingSlot.slot_id)

/-! ## Concrete scenario (mirrors `ParkingLot/Client.py`): one floor with a
single MEDIUM slot, fixed-rate strategy, one vehicle. Used as witness
inputs. -/

def demoSlot : ParkingSlot :=
  { slot_id := 0
    parking_slot_type := ParkingSlotType.MEDIUM
    parking_slot_state := ParkingSlotState.EMPTY }

def demoFloor : ParkingFloor := { floor_id := 0, slots := [demoSlot] }

def demoSystem : ParkingSystem :=
  { floors := [demoFloor]
    payment_strategy := ChargeStrategy.fixed (FixedChargeStrategy.init 20) }

def demoTicket : Ticket :=
  { ticket_id := 1
    vehicle_number := "AP27PEK9409"
    parking_slot_id := 0
    parking_slot_type := ParkingSlotType.MEDIUM
    issued_time := 0 }

/-- The system state while the demo vehicle is parked. -/
def demoSystemParked : ParkingSystem :=
  { floors := [{ floor_id := 0,
                 slots := [{ slot_id := 0
                             parking_slot_type := ParkingSlotType.MEDIUM
                             parking_slot_state := ParkingSlotState.FILLED }] }]
    payment_strategy := ChargeStrategy.fixed (FixedChargeStrategy.init 20) }

/-- The registry state while the demo vehicle is parked. -/
def demoTmParked : TicketManager := { tickets := [(1, demoTicket)] }

/-! ## Helper lemmas -/

/-- `setSlotState` on a decomposed slot list touches exactly the slot whose
id is targeted, provided no other slot shares the id. -/
lemma setSlotState_decomp (l1 l2 : List ParkingSlot) (s : ParkingSlot)
    (st : ParkingSlotState)
    (h1 : ∀ x ∈ l1, x.slot_id ≠ s.slot_id) (h2 : ∀ x ∈ l2, x.slot_id ≠ s.slot_id) :
    setSlotState (l1 ++ s :: l2) s.slot_id st = l1 ++ s.set_state st :: l2 := by
  unfold setSlotState
  rw [List.map_append, List.map_cons, if_pos rfl]
  congr 1
  · rw [List.map_congr_left (fun x hx => if_neg (h1 x hx))]
    exact List.map_id' l1
  · congr 1
    rw [List.map_congr_left (fun x hx => if_neg (h2 x hx))]
    exact List.map_id' l2

/-- From id-nodup of a decomposed slot list: nobody else carries `s`'s id. -/
lemma nodup_ids_decomp (l1 l2 : List ParkingSlot) (s : ParkingSlot)
    (hnd : ((l1 ++ s :: l2).map ParkingSlot.slot_id).Nodup) :
    (∀ x ∈ l1, x.slot_id ≠ s.slot_id) ∧ (∀ x ∈ l2, x.slot_id ≠ s.slot_id) := by
  rw [List.map_append, List.nodup_append] at hnd
  obtain ⟨-, hnd2, hdisj⟩ := hnd
  rw [List.map_cons, List.nodup_cons] at hnd2
  constructor
  · intro x hx heq
    exact hdisj (List.mem_map_of_mem ParkingSlot.slot_id hx)
      (by rw [List.map_cons]; exact heq ▸ List.mem_cons_self _ _)
  · intro x hx heq
    exact hnd2.1 (heq ▸ List.mem_map_of_mem ParkingSlot.slot_id hx)

/-- A failing `book_slot` leaves floor and registry untouched. -/
lemma book_slot_none_eq (f : ParkingFloor) (tm : TicketManager) (fresh_id : Nat)
    (vt : ParkingSlotType) (vid : String) (date : ℚ)
    (h : (f.book_slot tm fresh_id vt vid date).1 = none) :
    f.book_slot tm fresh_id vt vid date = (none, f, tm) := by
  simp only [ParkingFloor.book_slot] at h ⊢
  cases hfil : f.slots.filter (slotMatches vt) with
  | nil => simp only [hfil]
  | cons a as => rw [hfil] at h; simp at h

/-- `book_slot` fails exactly when no slot matches. -/
lemma book_slot_eq_none_iff (f : ParkingFloor) (tm : TicketManager) (fresh_id : Nat)
    (vt : ParkingSlotType) (vid : String) (date : ℚ) :
    (f.book_slot tm fresh_id vt vid date).1 = none ↔
      ∀ s ∈ f.slots, ¬(s.parking_slot_type = vt ∧
        s.parking_slot_state = ParkingSlotState.EMPTY) := by
  simp only [ParkingFloor.book_slot]
  cases hfil : f.slots.filter (slotMatches vt) with
  | nil =>
      simp only [hfil, true_iff]
      intro s hs
      have := List.filter_eq_nil_iff.mp hfil s hs
      simpa [slotMatches, ParkingSlot.get_type, ParkingSlot.get_state] using this
  | cons a as =>
      have ha : a ∈ f.slots.filter (slotMatches vt) := by
        rw [hfil]; exact List.mem_cons_self _ _
      rw [List.mem_filter] at ha
      have hmatch := ha.2
      simp only [slotMatches, ParkingSlot.get_type, ParkingSlot.get_state,
        decide_eq_true_eq] at hmatch
      simp only [hfil]
      exact iff_of_false (by simp) (fun hall => hall a ha.1 ⟨hmatch.1, hmatch.2⟩)

/-- Anatomy of a successful `book_slot`: the chosen slot is the first
matching one in insertion order, exactly it is flipped to FILLED, and the
minted ticket is stored. -/
lemma book_slot_success_spec (f : ParkingFloor) (tm : TicketManager) (fresh_id : Nat)
    (vt : ParkingSlotType) (vid : String) (date : ℚ) (t : Ticket)
    (f' : ParkingFloor) (tm' : TicketManager)
    (h : f.book_slot tm fresh_id vt vid date = (some t, f', tm')) :
    ∃ s l1 l2,
      f.slots = l1 ++ s :: l2 ∧
      (∀ x ∈ l1, slotMatches vt x = false) ∧
      slotMatches vt s = true ∧
      t = { ticket_id := fresh_id, vehicle_number := vid, parking_slot_id := s.slot_id,
            parking_slot_type := vt, issued_time := date } ∧
      f' = { f with slots := setSlotState f.slots s.slot_id ParkingSlotState.FILLED } ∧
      tm' = { tickets := dictInsert tm.tickets fresh_id t } := by
  simp only [ParkingFloor.book_slot] at h
  cases hfil : f.slots.filter (slotMatches vt) with
  | nil => rw [hfil] at h; simp at h
  | cons a as =>
      rw [hfil] at h
      obtain ⟨l1, l2, hdec, hl1, ha, -⟩ := List.filter_eq_cons_iff.mp hfil
      simp only [TicketManager.create_ticket, ParkingSlot.get_id, Prod.mk.injEq,
        Option.some.injEq] at h
      obtain ⟨ht, hf', htm'⟩ := h
      refine ⟨a, l1, l2, hdec, ?_, ha, ht.symm, hf'.symm, ?_⟩
      · intro x hx
        simpa using hl1 x hx
      · rw [← htm', ← ht]

/-- Overwriting the entry for a present key makes lookup return the new value. -/
lemma find?_map_update (l : List (Nat × Ticket)) (k : Nat) (v : Ticket)
    (h : l.any (fun p => decide (p.1 = k)) = true) :
    (l.map (fun p => if p.1 = k then (k, v) else p)).find?
      (fun p => decide (p.1 = k)) = some (k, v) := by
  induction l with
  | nil => simp at h
  | cons p ps ih =>
      by_cases hpk : p.1 = k
      · simp only [List.map_cons, if_pos hpk]
        exact List.find?_cons_of_pos _ (by simp)
      · have hps : ps.any (fun q => decide (q.1 = k)) = true := by
          rw [List.any_cons] at h
          simpa [hpk] using h
        simp only [List.map_cons, if_neg hpk]
        rw [List.find?_cons_of_neg _ (by simpa using hpk)]
        exact ih hps

/-- Appending an entry for an absent key makes lookup return it. -/
lemma find?_append_fresh (l : List (Nat × Ticket)) (k : Nat) (v : Ticket)
    (h : l.any (fun p => decide (p.1 = k)) = false) :
    (l ++ [(k, v)]).find? (fun p => decide (p.1 = k)) = some (k, v) := by
  induction l with
  | nil =>
      rw [List.nil_append]
      exact List.find?_cons_of_pos _ (by simp)
  | cons p ps ih =>
      have hpk : ¬(p.1 = k) := by
        intro hc
        rw [List.any_cons] at h
        simp [hc] at h
      have hps : ps.any (fun q => decide (q.1 = k)) = false := by
        rw [List.any_cons] at h
        simpa [hpk] using h
      rw [List.cons_append, List.find?_cons_of_neg _ (by simpa using hpk)]
      exact ih hps

/-- Looking up a key right after a dict insert returns the inserted value. -/
lemma dictGet_dictInsert_self (l : List (Nat × Ticket)) (k : Nat) (v : Ticket) :
    dictGet (dictInsert l k v) k = some v := by
  unfold dictInsert dictGet
  by_cases h : l.any (fun p => decide (p.1 = k)) = true
  · rw [if_pos h, find?_map_update l k v h]
    rfl
  · rw [if_neg h, find?_append_fresh l k v (Bool.eq_false_iff.mpr h)]
    rfl

/-- The key is present after a dict insert. -/
lemma any_dictInsert_self (l : List (Nat × Ticket)) (k : Nat) (v : Ticket) :
    (dictInsert l k v).any (fun p => decide (p.1 = k)) = true := by
  have h := dictGet_dictInsert_self l k v
  unfold dictGet at h
  cases hf : (dictInsert l k v).find? (fun p => decide (p.1 = k)) with
  | none => rw [hf] at h; simp at h
  | some p =>
      have := List.find?_some hf
      exact List.any_eq_true.mpr ⟨p, List.mem_of_find?_eq_some hf, this⟩

/-- After removing a key, the key is gone. -/
lemma any_filter_ne_self (l : List (Nat × Ticket)) (k : Nat) :
    (l.filter (fun p => decide (p.1 ≠ k))).any (fun p => decide (p.1 = k)) = false := by
  rw [List.any_eq_false]
  intro p hp
  rw [List.mem_filter] at hp
  have := hp.2
  simp only [decide_eq_true_eq] at this ⊢
  exact this

/-- `release_slot` on a known id: commits the EMPTY write and returns true. -/
lemma release_slot_pos (f : ParkingFloor) (sid : Nat)
    (h : f.slots.any (fun s => decide (s.slot_id = sid)) = true) :
    f.release_slot sid =
      (true, { f with slots := setSlotState f.slots sid ParkingSlotState.EMPTY }) := by
  unfold ParkingFloor.release_slot
  rw [if_pos h]

/-- `release_slot` on an unknown id: no-op returning false. -/
lemma release_slot_neg (f : ParkingFloor) (sid : Nat)
    (h : f.slots.any (fun s => decide (s.slot_id = sid)) = false) :
    f.release_slot sid = (false, f) := by
  unfold ParkingFloor.release_slot
  rw [if_neg (by simp [h])]

/-- `invalidate_ticket` on a present id removes it and returns True. -/
lemma invalidate_ticket_pos (tm : TicketManager) (t : Ticket)
    (h : tm.tickets.any (fun p => decide (p.1 = t.ticket_id)) = true) :
    tm.invalidate_ticket t =
      some ({ tickets := tm.tickets.filter (fun p => decide (p.1 ≠ t.ticket_id)) }, true) := by
  unfold TicketManager.invalidate_ticket
  rw [if_pos h]

/-- `invalidate_ticket` on an absent id raises `KeyError` (= `none`). -/
lemma invalidate_ticket_neg (tm : TicketManager) (t : Ticket)
    (h : tm.tickets.any (fun p => decide (p.1 = t.ticket_id)) = false) :
    tm.invalidate_ticket t = none := by
  unfold TicketManager.invalidate_ticket
  rw [if_neg (by simp [h])]

/-- If every floor fails to book, the park loop returns None and leaves
every floor and the registry unchanged. -/
lemma parkLoop_all_none (tm : TicketManager) (fresh_id : Nat) (vt : ParkingSlotType)
    (vid : String) (time : ℚ) (floors : List ParkingFloor)
    (h : ∀ f ∈ floors, (f.book_slot tm fresh_id vt vid time).1 = none) :
    parkLoop tm fresh_id vt vid time floors = (none, floors, tm) := by
  induction floors with
  | nil => rfl
  | cons f rest ih =>
      have hf := book_slot_none_eq f tm fresh_id vt vid time (h f (List.mem_cons_self _ _))
      simp only [parkLoop, hf]
      rw [ih (fun g hg => h g (List.mem_cons_of_mem _ hg))]

/-- Anatomy of a successful park loop: some floors are skipped (their
booking fails, changing nothing), then one floor books. -/
lemma parkLoop_success_spec (tm : TicketManager) (fresh_id : Nat) (vt : ParkingSlotType)
    (vid : String) (time : ℚ) (floors : List ParkingFloor) (t : Ticket)
    (floors' : List ParkingFloor) (tm' : TicketManager)
    (h : parkLoop tm fresh_id vt vid time floors = (some t, floors', tm')) :
    ∃ fl1 f fl2 f',
      floors = fl1 ++ f :: fl2 ∧
      (∀ g ∈ fl1, (g.book_slot tm fresh_id vt vid time).1 = none) ∧
      f.book_slot tm fresh_id vt vid time = (some t, f', tm') ∧
      floors' = fl1 ++ f' :: fl2 := by
  induction floors generalizing floors' with
  | nil => simp [parkLoop] at h
  | cons f rest ih =>
      rcases hb : f.book_slot tm fresh_id vt vid time with ⟨o, f0, tm0⟩
      cases o with
      | some t0 =>
          simp only [parkLoop, hb] at h
          simp only [Prod.mk.injEq, Option.some.injEq] at h
          obtain ⟨h1, h2, h3⟩ := h
          exact ⟨[], f, rest, f0, by simp, by simp, by rw [hb, h1, h3], by simp [h2]⟩
      | none =>
          have hb0 : (f.book_slot tm fresh_id vt vid time).1 = none := by rw [hb]
          have hbe := book_slot_none_eq f tm fresh_id vt vid time hb0
          have hf0 : f0 = f ∧ tm0 = tm := by
            rw [hb] at hbe
            simp only [Prod.mk.injEq] at hbe
            exact ⟨hbe.2.1, hbe.2.2⟩
          obtain ⟨hf0l, hf0r⟩ := hf0
          simp only [parkLoop, hb] at h
          rw [hf0l, hf0r] at h
          rcases hr : parkLoop tm fresh_id vt vid time rest with ⟨o', rest', tmr⟩
          rw [hr] at h
          simp only [Prod.mk.injEq] at h
          obtain ⟨h1, h2, h3⟩ := h
          subst h1 h3
          obtain ⟨fl1, g, fl2, g', hdec, hskip, hbook, hrest'⟩ := ih rest' hr
          refine ⟨f :: fl1, g, fl2, g', by simp [hdec], ?_, hbook, by simp [← h2, hrest']⟩
          intro x hx
          rcases List.mem_cons.mp hx with hxf | hxl
          · rw [hxf, hb0]
          · exact hskip x hxl

/-- The unpark loop skips floors that do not know the slot id and commits on
the first floor that does; the ticket is present, so the fee is computed. -/
lemma unparkLoop_found_fee (tm : TicketManager) (strategy : ChargeStrategy) (t : Ticket)
    (now : ℚ) (fl1 : List ParkingFloor) (f : ParkingFloor) (fl2 : List ParkingFloor)
    (h1 : ∀ g ∈ fl1, g.slots.any (fun s => decide (s.slot_id = t.parking_slot_id)) = false)
    (hf : f.slots.any (fun s => decide (s.slot_id = t.parking_slot_id)) = true)
    (htm : tm.tickets.any (fun p => decide (p.1 = t.ticket_id)) = true) :
    unparkLoop tm strategy t now (fl1 ++ f :: fl2) =
      (UnparkResult.fee (strategy.calculate_charge t now),
       fl1 ++ { f with
                 slots := setSlotState f.slots t.parking_slot_id
                   ParkingSlotState.EMPTY } :: fl2,
       { tickets := tm.tickets.filter (fun p => decide (p.1 ≠ t.ticket_id)) }) := by
  induction fl1 with
  | nil =>
      rw [List.nil_append, List.nil_append]
      simp only [unparkLoop, release_slot_pos f _ hf, invalidate_ticket_pos tm t htm]
      simp
  | cons g gl ih =>
      have hg := h1 g (List.mem_cons_self _ _)
      rw [List.cons_append, List.cons_append]
      simp only [unparkLoop, release_slot_neg g _ hg]
      rw [ih (fun x hx => h1 x (List.mem_cons_of_mem _ hx))]
      simp

/-- Same as `unparkLoop_found_fee` but with the ticket absent from the
registry: the `del` raises `KeyError`, after the slot was already released. -/
lemma unparkLoop_found_keyError (tm : TicketManager) (strategy : ChargeStrategy)
    (t : Ticket) (now : ℚ) (fl1 : List ParkingFloor) (f : ParkingFloor)
    (fl2 : List ParkingFloor)
    (h1 : ∀ g ∈ fl1, g.slots.any (fun s => decide (s.slot_id = t.parking_slot_id)) = false)
    (hf : f.slots.any (fun s => decide (s.slot_id = t.parking_slot_id)) = true)
    (htm : tm.tickets.any (fun p => decide (p.1 = t.ticket_id)) = false) :
    unparkLoop tm strategy t now (fl1 ++ f :: fl2) =
      (UnparkResult.keyError,
       fl1 ++ { f with
                 slots := setSlotState f.slots t.parking_slot_id
                   ParkingSlotState.EMPTY } :: fl2,
       tm) := by
  induction fl1 with
  | nil =>
      rw [List.nil_append, List.nil_append]
      simp only [unparkLoop, release_slot_pos f _ hf, invalidate_ticket_neg tm t htm]
      simp
  | cons g gl ih =>
      have hg := h1 g (List.mem_cons_self _ _)
      rw [List.cons_append, List.cons_append]
      simp only [unparkLoop, release_slot_neg g _ hg]
      rw [ih (fun x hx => h1 x (List.mem_cons_of_mem _ hx))]
      simp

/-- If no floor knows the slot id, the unpark loop reports the invalid
ticket and changes nothing. -/
lemma unparkLoop_all_miss (tm : TicketManager) (strategy : ChargeStrategy) (t : Ticket)
    (now : ℚ) (floors : List ParkingFloor)
    (h : ∀ g ∈ floors, g.slots.any (fun s => decide (s.slot_id = t.parking_slot_id)) = false) :
    unparkLoop tm strategy t now floors = (UnparkResult.invalidTicket, floors, tm) := by
  induction floors with
  | nil => rfl
  | cons g gl ih =>
      have hg := h g (List.mem_cons_self _ _)
      simp only [unparkLoop, release_slot_neg g _ hg]
      rw [ih (fun x hx => h x (List.mem_cons_of_mem _ hx))]
      simp

/-- Global id-uniqueness specialized to a decomposed floor list: the booking
floor's ids are nodup and no earlier floor shares any of its slot ids. -/
lemma nodup_flat_decomp (fl1 : List ParkingFloor) (f : ParkingFloor)
    (fl2 : List ParkingFloor)
    (hnd : ((fl1 ++ f :: fl2).flatMap (fun g => g.slots.map ParkingSlot.slot_id)).Nodup) :
    (f.slots.map ParkingSlot.slot_id).Nodup ∧
      ∀ g ∈ fl1, ∀ x ∈ g.slots, ∀ y ∈ f.slots, x.slot_id ≠ y.slot_id := by
  rw [List.flatMap_append, List.nodup_append] at hnd
  obtain ⟨-, hnd2, hdisj⟩ := hnd
  rw [List.flatMap_cons] at hnd2
  refine ⟨(List.nodup_append.mp hnd2).1, ?_⟩
  intro g hg x hx y hy heq
  refine hdisj (a := x.slot_id)
    (List.mem_flatMap.mpr ⟨g, hg, List.mem_map_of_mem _ hx⟩) ?_
  rw [List.flatMap_cons]
  exact List.mem_append_left _ (heq ▸ List.mem_map_of_mem _ hy)

/-- A slot keeps its id under `set_state`; setting the state it already has
is the identity. -/
lemma set_state_id (s : ParkingSlot) (st : ParkingSlotState) :
    (s.set_state st).slot_id = s.slot_id := rfl

lemma set_state_self (s : ParkingSlot) (st : ParkingSlotState)
    (h : s.parking_slot_state = st) : s.set_state st = s := by
  cases s
  simp only [ParkingSlot.set_state] at h ⊢
  rw [← h]

/-- A successful `book_slot` reads off the matching properties of the
chosen slot. -/
lemma slotMatches_eq_true (vt : ParkingSlotType) (s : ParkingSlot)
    (h : slotMatches vt s = true) :
    s.parking_slot_type = vt ∧ s.parking_slot_state = ParkingSlotState.EMPTY := by
  simpa [slotMatches, ParkingSlot.get_type, ParkingSlot.get_state,
    decide_eq_true_eq] using h

/-- Full anatomy of a successful `park_vehicle` under globally unique slot
ids: where the booking happened, which slot, and the exact output state. -/
lemma park_success_full (sys : ParkingSystem) (tm : TicketManager) (fresh_id : Nat)
    (vt : ParkingSlotType) (vid : String) (time : ℚ)
    (t : Ticket) (sys' : ParkingSystem) (tm' : TicketManager)
    (hnd : sys.allSlotIds.Nodup)
    (hp : sys.park_vehicle tm fresh_id vt vid time = (some t, sys', tm')) :
    ∃ fl1 f fl2 s l1 l2,
      sys.floors = fl1 ++ f :: fl2 ∧
      f.slots = l1 ++ s :: l2 ∧
      (∀ x ∈ l1, x.slot_id ≠ s.slot_id) ∧ (∀ x ∈ l2, x.slot_id ≠ s.slot_id) ∧
      (∀ g ∈ fl1, ∀ x ∈ g.slots, x.slot_id ≠ s.slot_id) ∧
      s.parking_slot_type = vt ∧ s.parking_slot_state = ParkingSlotState.EMPTY ∧
      t = { ticket_id := fresh_id, vehicle_number := vid, parking_slot_id := s.slot_id,
            parking_slot_type := vt, issued_time := time } ∧
      sys' = { sys with
                floors := fl1 ++
                  { f with slots := l1 ++ s.set_state ParkingSlotState.FILLED :: l2 } :: fl2 } ∧
      tm' = { tickets := dictInsert tm.tickets fresh_id t } := by
  simp only [ParkingSystem.park_vehicle] at hp
  rcases hr : parkLoop tm fresh_id vt vid time sys.floors with ⟨o, fl', tmr⟩
  rw [hr] at hp
  simp only [Prod.mk.injEq] at hp
  obtain ⟨h1, h2, h3⟩ := hp
  rw [h1, h3] at hr
  obtain ⟨fl1, f, fl2, f', hdec, hskip, hbook, hfl'⟩ :=
    parkLoop_success_spec tm fresh_id vt vid time sys.floors t fl' tm' hr
  obtain ⟨s, l1, l2, hslots, hl1, hsm, ht, hf', htm'⟩ :=
    book_slot_success_spec f tm fresh_id vt vid time t f' tm' hbook
  have hnd' : ((fl1 ++ f :: fl2).flatMap (fun g => g.slots.map ParkingSlot.slot_id)).Nodup := by
    rw [← hdec]
    exact hnd
  obtain ⟨hfnd, hdisj⟩ := nodup_flat_decomp fl1 f fl2 hnd'
  obtain ⟨hids1, hids2⟩ := nodup_ids_decomp l1 l2 s (by rw [← hslots]; exact hfnd)
  have hset : setSlotState f.slots s.slot_id ParkingSlotState.FILLED =
      l1 ++ s.set_state ParkingSlotState.FILLED :: l2 := by
    rw [hslots]
    exact setSlotState_decomp l1 l2 s _ hids1 hids2
  have hsmem : s ∈ f.slots := by
    rw [hslots]
    exact List.mem_append_right _ (List.mem_cons_self _ _)
  obtain ⟨hst, hse⟩ := slotMatches_eq_true vt s hsm
  refine ⟨fl1, f, fl2, s, l1, l2, hdec, hslots, hids1, hids2, ?_, hst, hse, ht, ?_, htm'⟩
  · intro g hg x hx
    exact hdisj g hg x hx s hsmem
  · rw [← h2, hfl', hf', hset]

/-- A successful park leaves a slot with the ticket's slot id somewhere in
the original system. -/
lemma park_ticket_slot_mem (sys : ParkingSystem) (tm : TicketManager) (fresh_id : Nat)
    (vt : ParkingSlotType) (vid : String) (time : ℚ)
    (t : Ticket) (sys' : ParkingSystem) (tm' : TicketManager)
    (hnd : sys.allSlotIds.Nodup)
    (hp : sys.park_vehicle tm fresh_id vt vid time = (some t, sys', tm')) :
    ∃ f ∈ sys.floors,
      f.slots.any (fun x => decide (x.slot_id = t.parking_slot_id)) = true := by
  obtain ⟨fl1, f, fl2, s, l1, l2, hdec, hslots, -, -, -, -, -, ht, -, -⟩ :=
    park_success_full sys tm fresh_id vt vid time t sys' tm' hnd hp
  refine ⟨f, ?_, ?_⟩
  · rw [hdec]
    exact List.mem_append_right _ (List.mem_cons_self _ _)
  · refine List.any_eq_true.mpr ⟨s, ?_, ?_⟩
    · rw [hslots]
      exact List.mem_append_right _ (List.mem_cons_self _ _)
    · rw [ht]
      simp

/-- Park followed by unpark with the minted ticket: the slot is released
back to EMPTY, the whole system returns to its pre-park state, the fee is
computed with the active strategy, and the ticket is removed. -/
lemma park_unpark_restore (sys : ParkingSystem) (tm : TicketManager) (fresh_id : Nat)
    (vt : ParkingSlotType) (vid : String) (time now : ℚ)
    (hnd : sys.allSlotIds.Nodup)
    (t : Ticket) (sys' : ParkingSystem) (tm' : TicketManager)
    (hp : sys.park_vehicle tm fresh_id vt vid time = (some t, sys', tm')) :
    sys'.unpark_vehicle tm' t now =
      (UnparkResult.fee (sys.payment_strategy.calculate_charge t now), sys,
       { tickets := tm'.tickets.filter (fun p => decide (p.1 ≠ t.ticket_id)) }) := by
  obtain ⟨fl1, f, fl2, s, l1, l2, hdec, hslots, hids1, hids2, hout, hst, hse, ht, hsys', htm'⟩ :=
    park_success_full sys tm fresh_id vt vid time t sys' tm' hnd hp
  have hid : t.parking_slot_id = s.slot_id := by rw [ht]
  have htid : t.ticket_id = fresh_id := by rw [ht]
  have hskip : ∀ g ∈ fl1,
      g.slots.any (fun x => decide (x.slot_id = t.parking_slot_id)) = false := by
    intro g hg
    rw [List.any_eq_false]
    intro x hx
    rw [hid]
    simpa using hout g hg x hx
  have hfound : ({ f with slots := l1 ++ s.set_state ParkingSlotState.FILLED :: l2
      } : ParkingFloor).slots.any
      (fun x => decide (x.slot_id = t.parking_slot_id)) = true := by
    refine List.any_eq_true.mpr ⟨s.set_state ParkingSlotState.FILLED, ?_, ?_⟩
    · exact List.mem_append_right _ (List.mem_cons_self _ _)
    · rw [hid]
      simp [set_state_id]
  have hticket : tm'.tickets.any (fun p => decide (p.1 = t.ticket_id)) = true := by
    rw [htm', htid]
    exact any_dictInsert_self tm.tickets fresh_id t
  have hsetback :
      setSlotState (l1 ++ s.set_state ParkingSlotState.FILLED :: l2) t.parking_slot_id
        ParkingSlotState.EMPTY = l1 ++ s :: l2 := by
    rw [hid]
    have h1' : ∀ x ∈ l1, x.slot_id ≠ (s.set_state ParkingSlotState.FILLED).slot_id := by
      simpa [set_state_id] using hids1
    have h2' : ∀ x ∈ l2, x.slot_id ≠ (s.set_state ParkingSlotState.FILLED).slot_id := by
      simpa [set_state_id] using hids2
    have := setSlotState_decomp l1 l2 (s.set_state ParkingSlotState.FILLED)
      ParkingSlotState.EMPTY h1' h2'
    rw [set_state_id] at this
    rw [this]
    congr 1
    congr 1
    exact set_state_self s ParkingSlotState.EMPTY hse
  rw [hsys']
  simp only [ParkingSystem.unpark_vehicle]
  rw [unparkLoop_found_fee tm' sys.payment_strategy t now fl1
    { f with slots := l1 ++ s.set_state ParkingSlotState.FILLED :: l2 } fl2
    hskip hfound hticket]
  simp only [hsetback]
  rw [← hslots]
  rw [← hdec]

/-- The park loop returns the ticket of the first floor whose booking
succeeds, skipping the earlier floors unchanged. -/
lemma parkLoop_found (tm : TicketManager) (fresh_id : Nat) (vt : ParkingSlotType)
    (vid : String) (time : ℚ) (fl1 : List ParkingFloor) (f : ParkingFloor)
    (fl2 : List ParkingFloor) (t : Ticket) (f' : ParkingFloor) (tm2 : TicketManager)
    (hskip : ∀ g ∈ fl1, (g.book_slot tm fresh_id vt vid time).1 = none)
    (hbook : f.book_slot tm fresh_id vt vid time = (some t, f', tm2)) :
    parkLoop tm fresh_id vt vid time (fl1 ++ f :: fl2) =
      (some t, fl1 ++ f' :: fl2, tm2) := by
  induction fl1 with
  | nil =>
      rw [List.nil_append, List.nil_append]
      simp only [parkLoop, hbook]
  | cons g gl ih =>
      have hge := book_slot_none_eq g tm fresh_id vt vid time
        (hskip g (List.mem_cons_self _ _))
      rw [List.cons_append, List.cons_append]
      simp only [parkLoop, hge]
      rw [ih (fun x hx => hskip x (List.mem_cons_of_mem _ hx))]

/-- If some floor knows the slot id but the ticket id is absent from the
registry, unparking raises `KeyError` (the slot release commits first). -/
lemma unparkLoop_keyError_of_mem (tm : TicketManager) (strategy : ChargeStrategy)
    (t : Ticket) (now : ℚ) (floors : List ParkingFloor)
    (hmem : ∃ f ∈ floors,
      f.slots.any (fun x => decide (x.slot_id = t.parking_slot_id)) = true)
    (habs : tm.tickets.any (fun p => decide (p.1 = t.ticket_id)) = false) :
    (unparkLoop tm strategy t now floors).1 = UnparkResult.keyError := by
  induction floors with
  | nil => simp at hmem
  | cons g gl ih =>
      cases hg : g.slots.any (fun x => decide (x.slot_id = t.parking_slot_id)) with
      | true =>
          simp only [unparkLoop, release_slot_pos g _ hg, invalidate_ticket_neg tm t habs]
          simp
      | false =>
          have hmem' : ∃ f ∈ gl,
              f.slots.any (fun x => decide (x.slot_id = t.parking_slot_id)) = true := by
            obtain ⟨f, hf, hfa⟩ := hmem
            rcases List.mem_cons.mp hf with hfg | hfl
            · rw [hfg, hg] at hfa
              exact absurd hfa (by simp)
            · exact ⟨f, hfl, hfa⟩
          simp only [unparkLoop, release_slot_neg g _ hg]
          exact ih hmem'

/-! ## Claim theorems -/

/-- Claim C10: the `hourly_rate` constructor parameter of
`FixedChargeStrategy` is ignored — the body stores the literal 20 — so any
two instances constructed with different rates have rate 20 and compute
identical charges for every ticket. -/
theorem C10_fixed_rate_param_ignored :
    (∀ r : ℚ, (FixedChargeStrategy.init r).hourly_rate = 20) ∧
    ∀ r r' : ℚ, ∀ t : Ticket, ∀ now : ℚ,
      (FixedChargeStrategy.init r).calculate_charge t now =
        (FixedChargeStrategy.init r').calculate_charge t now :=
  ⟨fun _ => rfl, fun _ _ _ _ => rfl⟩

/-- Claim C3: for `now` at or after the issue time, both strategies charge
`round((now − issued)/3600 × rate, 2)` with rounding only at the final
multiplication; Fixed uses its single stored rate independent of the slot
type, Dynamic looks the rate up from SMALL=20/MEDIUM=30/LARGE=40; a ticket
held exactly 2 hours under Fixed rate 20 is charged 40.00. -/
theorem C3_calculate_charge (t : Ticket) (now : ℚ) (h : t.issued_time ≤ now) :
    (∀ r : ℚ, (FixedChargeStrategy.init r).calculate_charge t now =
        round2 ((now - t.issued_time) / 3600 * (FixedChargeStrategy.init r).hourly_rate)) ∧
    (∀ c : FixedChargeStrategy, ∀ ty : ParkingSlotType,
        c.calculate_charge { t with parking_slot_type := ty } now =
          c.calculate_charge t now) ∧
    DynamicChargeStrategy.calculate_charge t now =
      round2 ((now - t.issued_time) / 3600 * hourly_rate_map t.parking_slot_type) ∧
    hourly_rate_map ParkingSlotType.SMALL = 20 ∧
    hourly_rate_map ParkingSlotType.MEDIUM = 30 ∧
    hourly_rate_map ParkingSlotType.LARGE = 40 ∧
    (now = t.issued_time + 7200 →
      (FixedChargeStrategy.init 20).calculate_charge t now = 40) := by
  refine ⟨fun r => rfl, fun c ty => rfl, rfl, rfl, rfl, rfl, ?_⟩
  intro h2
  subst h2
  simp only [FixedChargeStrategy.calculate_charge, FixedChargeStrategy.init]
  have hd : t.issued_time + 7200 - t.issued_time = (7200 : ℚ) := by ring
  rw [hd]
  norm_num [round2, roundHalfEven]

/-- Witness for C3 at the demo ticket, two hours after issue. -/
theorem C3_calculate_charge_witness :
    demoTicket.issued_time ≤ (7200 : ℚ) ∧
    ((∀ r : ℚ, (FixedChargeStrategy.init r).calculate_charge demoTicket 7200 =
        round2 ((7200 - demoTicket.issued_time) / 3600 *
          (FixedChargeStrategy.init r).hourly_rate)) ∧
    (∀ c : FixedChargeStrategy, ∀ ty : ParkingSlotType,
        c.calculate_charge { demoTicket with parking_slot_type := ty } 7200 =
          c.calculate_charge demoTicket 7200) ∧
    DynamicChargeStrategy.calculate_charge demoTicket 7200 =
      round2 ((7200 - demoTicket.issued_time) / 3600 *
        hourly_rate_map demoTicket.parking_slot_type) ∧
    hourly_rate_map ParkingSlotType.SMALL = 20 ∧
    hourly_rate_map ParkingSlotType.MEDIUM = 30 ∧
    hourly_rate_map ParkingSlotType.LARGE = 40 ∧
    ((7200 : ℚ) = demoTicket.issued_time + 7200 →
      (FixedChargeStrategy.init 20).calculate_charge demoTicket 7200 = 40)) :=
  ⟨by norm_num [demoTicket], C3_calculate_charge demoTicket 7200 (by norm_num [demoTicket])⟩

/-- Claim C8 fails on the code: `TicketManager.__init__` has no singleton
guard — constructing a second instance while one exists succeeds silently
instead of raising. -/
theorem C8_counterexample :
    TicketManager.construct (some { tickets := [(1, demoTicket)] }) =
      Except.ok { tickets := [] } := rfl

/-- Claim C8 (amended): `ParkingSystem.__init__` and `ConsoleLogger.__init__`
raise when an instance already exists, but `TicketManager.__init__` does not:
it always returns a fresh empty instance. -/
theorem C8_singleton_guards :
    (∀ ps : ParkingSystem,
      ParkingSystem.construct (some ps) = Except.error "ParkingSystem is a singleton") ∧
    ConsoleLogger.construct (some ()) = Except.error "ConsoleLogger is a singleton" ∧
    ∀ tm : TicketManager,
      TicketManager.construct (some tm) = Except.ok { tickets := [] } :=
  ⟨fun _ => rfl, rfl, fun _ => rfl⟩

/-- Claim C7 fails on the code: `release_slot` on a known slot id whose slot
is already EMPTY returns `true`, not `false` — membership of the id is all
that is checked. -/
theorem C7_counterexample : (demoFloor.release_slot 0).1 = true := by decide

/-- Claim C7 (amended): `release_slot` on a slot id known to the floor whose
slot is already EMPTY returns `true` (not false) and leaves the floor
unchanged — it never throws, but it signals success rather than failure. -/
theorem C7_release_already_empty (f : ParkingFloor) (sid : Nat)
    (hnd : (f.slots.map ParkingSlot.slot_id).Nodup)
    (h : ∃ s ∈ f.slots, s.slot_id = sid ∧
      s.parking_slot_state = ParkingSlotState.EMPTY) :
    f.release_slot sid = (true, f) := by
  obtain ⟨s, hs, hsid, hse⟩ := h
  subst hsid
  have hany : f.slots.any (fun x => decide (x.slot_id = s.slot_id)) = true :=
    List.any_eq_true.mpr ⟨s, hs, by simp⟩
  rw [release_slot_pos f _ hany]
  obtain ⟨l1, l2, hdec⟩ := List.append_of_mem hs
  obtain ⟨h1, h2⟩ := nodup_ids_decomp l1 l2 s (by rw [← hdec]; exact hnd)
  have hss := setSlotState_decomp l1 l2 s ParkingSlotState.EMPTY h1 h2
  rw [hdec, hss, set_state_self s _ hse, ← hdec]

/-- Witness for C7 (amended) at the demo floor. -/
theorem C7_release_already_empty_witness :
    (demoFloor.slots.map ParkingSlot.slot_id).Nodup ∧
    (∃ s ∈ demoFloor.slots, s.slot_id = 0 ∧
      s.parking_slot_state = ParkingSlotState.EMPTY) ∧
    demoFloor.release_slot 0 = (true, demoFloor) :=
  ⟨by decide, by decide,
    C7_release_already_empty demoFloor 0 (by decide) (by decide)⟩

/-- Claim C5: when no floor holds an EMPTY slot of the requested type,
`book_slot` on every floor and `park_vehicle` return None without raising,
and every slot, floor, and the ticket registry are left unchanged. -/
theorem C5_park_no_slot (sys : ParkingSystem) (tm : TicketManager) (fresh_id : Nat)
    (vt : ParkingSlotType) (vid : String) (time : ℚ)
    (h : ∀ f ∈ sys.floors, ∀ s ∈ f.slots,
        ¬(s.parking_slot_type = vt ∧ s.parking_slot_state = ParkingSlotState.EMPTY)) :
    (∀ f ∈ sys.floors, f.book_slot tm fresh_id vt vid time = (none, f, tm)) ∧
    sys.park_vehicle tm fresh_id vt vid time = (none, sys, tm) := by
  have hbook : ∀ f ∈ sys.floors, f.book_slot tm fresh_id vt vid time = (none, f, tm) :=
    fun f hf => book_slot_none_eq f tm fresh_id vt vid time
      ((book_slot_eq_none_iff f tm fresh_id vt vid time).mpr (h f hf))
  refine ⟨hbook, ?_⟩
  simp only [ParkingSystem.park_vehicle]
  rw [parkLoop_all_none tm fresh_id vt vid time sys.floors
    (fun f hf => by rw [hbook f hf])]

/-- Claim C1: with at least one EMPTY slot of the requested type on the
floor, `book_slot` picks the first such slot in insertion order, flips
exactly it to FILLED, returns a ticket carrying the vehicle id, that slot's
id, the requested type and the timestamp, and the ticket is retrievable
from the registry under its id. -/
theorem C1_book_slot_first_fit (f : ParkingFloor) (tm : TicketManager) (fresh_id : Nat)
    (vt : ParkingSlotType) (vid : String) (date : ℚ)
    (hnd : (f.slots.map ParkingSlot.slot_id).Nodup)
    (hex : ∃ s ∈ f.slots, s.parking_slot_type = vt ∧
      s.parking_slot_state = ParkingSlotState.EMPTY) :
    ∃ s l1 l2,
      f.slots = l1 ++ s :: l2 ∧
      (∀ x ∈ l1, ¬(x.parking_slot_type = vt ∧
        x.parking_slot_state = ParkingSlotState.EMPTY)) ∧
      s.parking_slot_type = vt ∧ s.parking_slot_state = ParkingSlotState.EMPTY ∧
      f.book_slot tm fresh_id vt vid date =
        (some { ticket_id := fresh_id, vehicle_number := vid, parking_slot_id := s.slot_id,
                parking_slot_type := vt, issued_time := date },
         { f with slots := l1 ++ s.set_state ParkingSlotState.FILLED :: l2 },
         { tickets := dictInsert tm.tickets fresh_id
            { ticket_id := fresh_id, vehicle_number := vid, parking_slot_id := s.slot_id,
              parking_slot_type := vt, issued_time := date } }) ∧
      dictGet (f.book_slot tm fresh_id vt vid date).2.2.tickets fresh_id =
        some { ticket_id := fresh_id, vehicle_number := vid, parking_slot_id := s.slot_id,
               parking_slot_type := vt, issued_time := date } := by
  rcases hres : f.book_slot tm fresh_id vt vid date with ⟨o, f', tm'⟩
  cases o with
  | none =>
      exfalso
      obtain ⟨s, hs, h1, h2⟩ := hex
      exact (book_slot_eq_none_iff f tm fresh_id vt vid date).mp (by rw [hres]) s hs ⟨h1, h2⟩
  | some t =>
      obtain ⟨s, l1, l2, hslots, hl1, hsm, ht, hf', htm'⟩ :=
        book_slot_success_spec f tm fresh_id vt vid date t f' tm' hres
      obtain ⟨hty, hstate⟩ := slotMatches_eq_true vt s hsm
      obtain ⟨hids1, hids2⟩ := nodup_ids_decomp l1 l2 s (by rw [← hslots]; exact hnd)
      have hset : setSlotState f.slots s.slot_id ParkingSlotState.FILLED =
          l1 ++ s.set_state ParkingSlotState.FILLED :: l2 := by
        rw [hslots]
        exact setSlotState_decomp l1 l2 s _ hids1 hids2
      subst ht
      refine ⟨s, l1, l2, hslots, ?_, hty, hstate, ?_, ?_⟩
      · intro x hx hmatch
        have hx' := hl1 x hx
        simp only [slotMatches, ParkingSlot.get_type, ParkingSlot.get_state,
          decide_eq_false_iff_not] at hx'
        exact hx' hmatch
      · rw [hf', htm', hset]
      · rw [htm']
        exact dictGet_dictInsert_self tm.tickets fresh_id _

/-- Witness for C1: a floor holding a SMALL slot, a FILLED MEDIUM slot and
two EMPTY MEDIUM slots; booking MEDIUM picks slot 2, the first EMPTY MEDIUM
in insertion order. -/
theorem C1_book_slot_first_fit_witness :
    (((⟨9, [⟨0, ParkingSlotType.SMALL, ParkingSlotState.EMPTY⟩,
            ⟨1, ParkingSlotType.MEDIUM, ParkingSlotState.FILLED⟩,
            ⟨2, ParkingSlotType.MEDIUM, ParkingSlotState.EMPTY⟩,
            ⟨3, ParkingSlotType.MEDIUM, ParkingSlotState.EMPTY⟩]⟩ :
        ParkingFloor).slots.map ParkingSlot.slot_id).Nodup ∧
      (∃ s ∈ (⟨9, [⟨0, ParkingSlotType.SMALL, ParkingSlotState.EMPTY⟩,
            ⟨1, ParkingSlotType.MEDIUM, ParkingSlotState.FILLED⟩,
            ⟨2, ParkingSlotType.MEDIUM, ParkingSlotState.EMPTY⟩,
            ⟨3, ParkingSlotType.MEDIUM, ParkingSlotState.EMPTY⟩]⟩ :
        ParkingFloor).slots, s.parking_slot_type = ParkingSlotType.MEDIUM ∧
          s.parking_slot_state = ParkingSlotState.EMPTY)) ∧
    ∃ s l1 l2,
      (⟨9, [⟨0, ParkingSlotType.SMALL, ParkingSlotState.EMPTY⟩,
            ⟨1, ParkingSlotType.MEDIUM, ParkingSlotState.FILLED⟩,
            ⟨2, ParkingSlotType.MEDIUM, ParkingSlotState.EMPTY⟩,
            ⟨3, ParkingSlotType.MEDIUM, ParkingSlotState.EMPTY⟩]⟩ :
        ParkingFloor).slots = l1 ++ s :: l2 ∧
      (∀ x ∈ l1, ¬(x.parking_slot_type = ParkingSlotType.MEDIUM ∧
        x.parking_slot_state = ParkingSlotState.EMPTY)) ∧
      s.parking_slot_type = ParkingSlotType.MEDIUM ∧
      s.parking_slot_state = ParkingSlotState.EMPTY ∧
      (⟨9, [⟨0, ParkingSlotType.SMALL, ParkingSlotState.EMPTY⟩,
            ⟨1, ParkingSlotType.MEDIUM, ParkingSlotState.FILLED⟩,
            ⟨2, ParkingSlotType.MEDIUM, ParkingSlotState.EMPTY⟩,
            ⟨3, ParkingSlotType.MEDIUM, ParkingSlotState.EMPTY⟩]⟩ :
        ParkingFloor).book_slot { tickets := [] } 7 ParkingSlotType.MEDIUM
          "KA01AB1234" 5 =
        (some { ticket_id := 7, vehicle_number := "KA01AB1234",
                parking_slot_id := s.slot_id,
                parking_slot_type := ParkingSlotType.MEDIUM, issued_time := 5 },
         { (⟨9, [⟨0, ParkingSlotType.SMALL, ParkingSlotState.EMPTY⟩,
            ⟨1, ParkingSlotType.MEDIUM, ParkingSlotState.FILLED⟩,
            ⟨2, ParkingSlotType.MEDIUM, ParkingSlotState.EMPTY⟩,
            ⟨3, ParkingSlotType.MEDIUM, ParkingSlotState.EMPTY⟩]⟩ :
           ParkingFloor) with
           slots := l1 ++ s.set_state ParkingSlotState.FILLED :: l2 },
         { tickets := dictInsert [] 7
            { ticket_id := 7, vehicle_number := "KA01AB1234",
              parking_slot_id := s.slot_id,
              parking_slot_type := ParkingSlotType.MEDIUM, issued_time := 5 } }) ∧
      dictGet ((⟨9, [⟨0, ParkingSlotType.SMALL, ParkingSlotState.EMPTY⟩,
            ⟨1, ParkingSlotType.MEDIUM, ParkingSlotState.FILLED⟩,
            ⟨2, ParkingSlotType.MEDIUM, ParkingSlotState.EMPTY⟩,
            ⟨3, ParkingSlotType.MEDIUM, ParkingSlotState.EMPTY⟩]⟩ :
          ParkingFloor).book_slot { tickets := [] } 7 ParkingSlotType.MEDIUM
            "KA01AB1234" 5).2.2.tickets 7 =
        some { ticket_id := 7, vehicle_number := "KA01AB1234",
               parking_slot_id := s.slot_id,
               parking_slot_type := ParkingSlotType.MEDIUM, issued_time := 5 } :=
  ⟨⟨by decide, by decide⟩,
    C1_book_slot_first_fit _ { tickets := [] } 7 ParkingSlotType.MEDIUM
      "KA01AB1234" 5 (by decide) (by decide)⟩

/-- Claim C4: `park_vehicle` tries floors in registration order and returns
the ticket of the first floor whose booking succeeds; None if all fail. -/
theorem C4_park_first_success (sys : ParkingSystem) (tm : TicketManager) (fresh_id : Nat)
    (vt : ParkingSlotType) (vid : String) (time : ℚ) :
    ((∀ f ∈ sys.floors, ∀ s ∈ f.slots, ¬(s.parking_slot_type = vt ∧
        s.parking_slot_state = ParkingSlotState.EMPTY)) →
      (sys.park_vehicle tm fresh_id vt vid time).1 = none) ∧
    ∀ fl1 f fl2, sys.floors = fl1 ++ f :: fl2 →
      (∀ g ∈ fl1, (g.book_slot tm fresh_id vt vid time).1 = none) →
      ∀ t, (f.book_slot tm fresh_id vt vid time).1 = some t →
        (sys.park_vehicle tm fresh_id vt vid time).1 = some t := by
  constructor
  · intro h
    simp only [ParkingSystem.park_vehicle]
    rw [parkLoop_all_none tm fresh_id vt vid time sys.floors
      (fun f hf => (book_slot_eq_none_iff f tm fresh_id vt vid time).mpr (h f hf))]
  · intro fl1 f fl2 hdec hskip t hbook1
    rcases hb : f.book_slot tm fresh_id vt vid time with ⟨o, f', tm2⟩
    rw [hb] at hbook1
    simp only at hbook1
    simp only [ParkingSystem.park_vehicle]
    rw [hdec, parkLoop_found tm fresh_id vt vid time fl1 f fl2 t f' tm2 hskip
      (by rw [hb, hbook1])]

/-- Witness for C4: a two-floor system where the first floor has no MEDIUM
slot; the MEDIUM park books on the second floor. -/
theorem C4_park_first_success_witness :
    (⟨[⟨0, [⟨0, ParkingSlotType.SMALL, ParkingSlotState.EMPTY⟩]⟩,
       ⟨1, [⟨1, ParkingSlotType.MEDIUM, ParkingSlotState.EMPTY⟩]⟩],
      ChargeStrategy.fixed (FixedChargeStrategy.init 20)⟩ : ParkingSystem).floors =
      [⟨0, [⟨0, ParkingSlotType.SMALL, ParkingSlotState.EMPTY⟩]⟩] ++
        (⟨1, [⟨1, ParkingSlotType.MEDIUM, ParkingSlotState.EMPTY⟩]⟩ : ParkingFloor) :: [] ∧
    (∀ g ∈ [(⟨0, [⟨0, ParkingSlotType.SMALL, ParkingSlotState.EMPTY⟩]⟩ : ParkingFloor)],
      (g.book_slot { tickets := [] } 7 ParkingSlotType.MEDIUM "KA01AB1234" 5).1 = none) ∧
    ((⟨1, [⟨1, ParkingSlotType.MEDIUM, ParkingSlotState.EMPTY⟩]⟩ :
        ParkingFloor).book_slot { tickets := [] } 7 ParkingSlotType.MEDIUM
          "KA01AB1234" 5).1 =
      some { ticket_id := 7, vehicle_number := "KA01AB1234", parking_slot_id := 1,
             parking_slot_type := ParkingSlotType.MEDIUM, issued_time := 5 } ∧
    ((⟨[⟨0, [⟨0, ParkingSlotType.SMALL, ParkingSlotState.EMPTY⟩]⟩,
        ⟨1, [⟨1, ParkingSlotType.MEDIUM, ParkingSlotState.EMPTY⟩]⟩],
       ChargeStrategy.fixed (FixedChargeStrategy.init 20)⟩ :
        ParkingSystem).park_vehicle { tickets := [] } 7 ParkingSlotType.MEDIUM
          "KA01AB1234" 5).1 =
      some { ticket_id := 7, vehicle_number := "KA01AB1234", parking_slot_id := 1,
             parking_slot_type := ParkingSlotType.MEDIUM, issued_time := 5 } :=
  ⟨by decide, by decide, by decide,
    (C4_park_first_success
      (⟨[⟨0, [⟨0, ParkingSlotType.SMALL, ParkingSlotState.EMPTY⟩]⟩,
         ⟨1, [⟨1, ParkingSlotType.MEDIUM, ParkingSlotState.EMPTY⟩]⟩],
        ChargeStrategy.fixed (FixedChargeStrategy.init 20)⟩ : ParkingSystem)
      { tickets := [] } 7 ParkingSlotType.MEDIUM "KA01AB1234" 5).2
      [⟨0, [⟨0, ParkingSlotType.SMALL, ParkingSlotState.EMPTY⟩]⟩]
      ⟨1, [⟨1, ParkingSlotType.MEDIUM, ParkingSlotState.EMPTY⟩]⟩
      [] (by decide) (by decide)
      { ticket_id := 7, vehicle_number := "KA01AB1234", parking_slot_id := 1,
        parking_slot_type := ParkingSlotType.MEDIUM, issued_time := 5 }
      (by decide)⟩

/-- Claim C6: a successful park followed by unpark with the returned ticket
restores the booked slot to EMPTY — in fact the whole system returns to its
exact pre-park state — while a fee is computed with the active strategy. -/
theorem C6_park_unpark_roundtrip (sys : ParkingSystem) (tm : TicketManager)
    (fresh_id : Nat) (vt : ParkingSlotType) (vid : String) (time now : ℚ)
    (hnd : sys.allSlotIds.Nodup)
    (t : Ticket) (sys' : ParkingSystem) (tm' : TicketManager)
    (hp : sys.park_vehicle tm fresh_id vt vid time = (some t, sys', tm')) :
    ∃ tm2, sys'.unpark_vehicle tm' t now =
      (UnparkResult.fee (sys.payment_strategy.calculate_charge t now), sys, tm2) :=
  ⟨_, park_unpark_restore sys tm fresh_id vt vid time now hnd t sys' tm' hp⟩

/-- Witness for C6 on the demo scenario. -/
theorem C6_park_unpark_roundtrip_witness :
    demoSystem.allSlotIds.Nodup ∧
    demoSystem.park_vehicle { tickets := [] } 1 ParkingSlotType.MEDIUM
      "AP27PEK9409" 0 = (some demoTicket, demoSystemParked, demoTmParked) ∧
    ∃ tm2, demoSystemParked.unpark_vehicle demoTmParked demoTicket 7200 =
      (UnparkResult.fee (demoSystem.payment_strategy.calculate_charge demoTicket 7200),
       demoSystem, tm2) :=
  ⟨by decide, by decide,
    C6_park_unpark_roundtrip demoSystem { tickets := [] } 1 ParkingSlotType.MEDIUM
      "AP27PEK9409" 0 7200 (by decide) demoTicket demoSystemParked demoTmParked
      (by decide)⟩

/-- Claim C2 fails on the code: on the demo scenario the first unpark
succeeds with fee 40.00, but the second unpark with the same ticket raises
`KeyError` (modelled `keyError`) instead of returning an InvalidTicket
result, because `release_slot` still returns true for the known slot id and
`invalidate_ticket` deletes unconditionally; likewise `invalidate_ticket`
on an absent ticket id raises instead of returning false. -/
theorem C2_counterexample :
    demoSystem.park_vehicle { tickets := [] } 1 ParkingSlotType.MEDIUM
      "AP27PEK9409" 0 = (some demoTicket, demoSystemParked, demoTmParked) ∧
    demoSystemParked.unpark_vehicle demoTmParked demoTicket 7200 =
      (UnparkResult.fee (demoSystem.payment_strategy.calculate_charge demoTicket 7200),
       demoSystem, { tickets := [] }) ∧
    demoSystem.payment_strategy.calculate_charge demoTicket 7200 = 40 ∧
    (demoSystem.unpark_vehicle { tickets := [] } demoTicket 7200).1 =
      UnparkResult.keyError ∧
    UnparkResult.keyError ≠ UnparkResult.invalidTicket ∧
    TicketManager.invalidate_ticket { tickets := [] } demoTicket = none := by
  refine ⟨by decide, by rfl, ?_, by decide, by decide, by decide⟩
  simp only [demoSystem, demoTicket, ChargeStrategy.calculate_charge,
    FixedChargeStrategy.calculate_charge, FixedChargeStrategy.init]
  norm_num [round2, roundHalfEven]

/-- Claim C2 (amended): the first unpark of a parked ticket succeeds with a
fee and restores the system; a second unpark with the same ticket reaches
`invalidate_ticket` (the slot id is still known, so `release_slot` returns
true again) and raises `KeyError`; `invalidate_ticket` on any absent ticket
id raises `KeyError` rather than returning false. -/
theorem C2_amended_double_unpark (sys : ParkingSystem) (tm : TicketManager)
    (fresh_id : Nat) (vt : ParkingSlotType) (vid : String) (time now now2 : ℚ)
    (hnd : sys.allSlotIds.Nodup)
    (t : Ticket) (sys' : ParkingSystem) (tm' : TicketManager)
    (hp : sys.park_vehicle tm fresh_id vt vid time = (some t, sys', tm')) :
    (∃ q tm2, sys'.unpark_vehicle tm' t now = (UnparkResult.fee q, sys, tm2) ∧
      (sys.unpark_vehicle tm2 t now2).1 = UnparkResult.keyError) ∧
    ∀ (tmx : TicketManager) (tx : Ticket),
      tmx.tickets.any (fun p => decide (p.1 = tx.ticket_id)) = false →
      tmx.invalidate_ticket tx = none := by
  refine ⟨?_, fun tmx tx hx => invalidate_ticket_neg tmx tx hx⟩
  refine ⟨sys.payment_strategy.calculate_charge t now,
    { tickets := tm'.tickets.filter (fun p => decide (p.1 ≠ t.ticket_id)) },
    park_unpark_restore sys tm fresh_id vt vid time now hnd t sys' tm' hp, ?_⟩
  simp only [ParkingSystem.unpark_vehicle]
  exact unparkLoop_keyError_of_mem _ _ _ _ _
    (park_ticket_slot_mem sys tm fresh_id vt vid time t sys' tm' hnd hp)
    (any_filter_ne_self tm'.tickets t.ticket_id)

/-- Witness for C2 (amended) on the demo scenario. -/
theorem C2_amended_double_unpark_witness :
    demoSystem.allSlotIds.Nodup ∧
    demoSystem.park_vehicle { tickets := [] } 1 ParkingSlotType.MEDIUM
      "AP27PEK9409" 0 = (some demoTicket, demoSystemParked, demoTmParked) ∧
    ((∃ q tm2, demoSystemParked.unpark_vehicle demoTmParked demoTicket 7200 =
        (UnparkResult.fee q, demoSystem, tm2) ∧
      (demoSystem.unpark_vehicle tm2 demoTicket 9000).1 = UnparkResult.keyError) ∧
    ∀ (tmx : TicketManager) (tx : Ticket),
      tmx.tickets.any (fun p => decide (p.1 = tx.ticket_id)) = false →
      tmx.invalidate_ticket tx = none) :=
  ⟨by decide, by decide,
    C2_amended_double_unpark demoSystem { tickets := [] } 1 ParkingSlotType.MEDIUM
      "AP27PEK9409" 0 7200 9000 (by decide) demoTicket demoSystemParked demoTmParked
      (by decide)⟩

/-- Witness for C5: the demo system while its only slot is FILLED. -/
theorem C5_park_no_slot_witness :
    (∀ f ∈ demoSystemParked.floors, ∀ s ∈ f.slots,
      ¬(s.parking_slot_type = ParkingSlotType.MEDIUM ∧
        s.parking_slot_state = ParkingSlotState.EMPTY)) ∧
    ((∀ f ∈ demoSystemParked.floors,
        f.book_slot demoTmParked 2 ParkingSlotType.MEDIUM "TS27PEK9409" 100 =
          (none, f, demoTmParked)) ∧
      demoSystemParked.park_vehicle demoTmParked 2 ParkingSlotType.MEDIUM
        "TS27PEK9409" 100 = (none, demoSystemParked, demoTmParked)) :=
  ⟨by decide, C5_park_no_slot demoSystemParked demoTmParked 2 ParkingSlotType.MEDIUM
    "TS27PEK9409" 100 (by decide)⟩

end ParkingLot
